import Mathlib

/-!
Verification of the Move model AST exporters.

The repository contains three exporter binaries sharing one pipeline shape:
stage the input into a package root, invoke the external Move compiler,
check for compilation errors, serialize the resulting global environment to
JSON, and print it.  We embed, faithfully to the source:

* `src/main.rs`      — the attribute-aware exporter (namespace `AttrExporter`);
* `src/basic_full.rs`— the full entity exporter (namespace `BasicFull`);
* `src/summary.rs`   — the summary exporter (namespace `Summary`);
* the shared `main` pipeline (staging a single file into an ephemeral
  package directory, compiling, error-checking, printing), over a small
  explicit filesystem model.

The external compiler (`move_compiler_v2` / `move_model`) is an out-of-repo
collaborator; following the specification it is modelled as an abstract
function from the staged source contents to a compiled global environment
(`GlobalEnvM`).  Interned symbols, rendered types, operation and value debug
strings are modelled as the strings the resolver produces for them, since the
exporters only ever consume them through their string renderings.
-/

/-- Json models the `serde_json::Value` documents the exporters emit; object
fields are kept as an ordered association list, matching serde's
declaration-order serialization of Rust structs. -/
inductive Json where
| str : String → Json
| num : Nat → Json
| bool : Bool → Json
| null : Json
| arr : List Json → Json
| obj : List (String × Json) → Json


/-- jsonKeys returns the ordered key list of a JSON object (and `[]` on any
non-object), modelling the set of keys a downstream consumer sees. -/
def jsonKeys : Json → List String
| .obj fields => fields.map (fun kv => kv.1)
| _ => []

/-- optStr models serde's serialization of `Option<String>`: `None` becomes
JSON `null`, `Some s` the string itself. -/
def optStr : Option String → Json
| none => Json.null
| some s => Json.str s

namespace Model

/-- ExpData mirrors `move_model::ast::ExpData`, the open-ended expression
node vocabulary of the external model crate.  Each variant carries its
`NodeId` first, as in the source.  Payloads the exporters only consume via
`Debug`/display rendering (values, symbols, operations, patterns, specs) are
modelled as their rendered strings. -/
inductive ExpData where
| Invalid (id : Nat)
| Value (id : Nat) (v : String)
| LocalVar (id : Nat) (sym : String)
| Temporary (id : Nat) (idx : Nat)
| Call (id : Nat) (oper : String) (args : List ExpData)
| Invoke (id : Nat) (target : ExpData) (args : List ExpData)
| Lambda (id : Nat) (pat : String) (body : ExpData)
| Quant (id : Nat) (qkind : String) (body : ExpData)
| Block (id : Nat) (pat : String) (binding : Option ExpData) (body : ExpData)
| IfElse (id : Nat) (cond : ExpData) (thenE : ExpData) (elseE : ExpData)
| Match (id : Nat) (scrut : ExpData) (arms : List ExpData)
| Return (id : Nat) (vals : ExpData)
| Sequence (id : Nat) (items : List ExpData)
| Loop (id : Nat) (body : ExpData)
| LoopCont (id : Nat) (nest : Nat) (isContinue : Bool)
| Assign (id : Nat) (lhs : String) (rhs : ExpData)
| Mutate (id : Nat) (lhs : ExpData) (rhs : ExpData)
| SpecBlock (id : Nat) (spec : String)


mutual

/-- expDebug models the derived `Debug` rendering `format!("{e:?}")` of an
expression node: variant name, `NodeId`, then the payloads recursively. -/
def expDebug : ExpData → String
| .Invalid id => "Invalid(NodeId(" ++ toString id ++ "))"
| .Value id v => "Value(NodeId(" ++ toString id ++ "), " ++ v ++ ")"
| .LocalVar id sym => "LocalVar(NodeId(" ++ toString id ++ "), " ++ sym ++ ")"
| .Temporary id idx => "Temporary(NodeId(" ++ toString id ++ "), " ++ toString idx ++ ")"
| .Call id oper args =>
    "Call(NodeId(" ++ toString id ++ "), " ++ oper ++ ", [" ++
      String.intercalate ", " (expsDebug args) ++ "])"
| .Invoke id target args =>
    "Invoke(NodeId(" ++ toString id ++ "), " ++ expDebug target ++ ", [" ++
      String.intercalate ", " (expsDebug args) ++ "])"
| .Lambda id pat body =>
    "Lambda(NodeId(" ++ toString id ++ "), " ++ pat ++ ", " ++ expDebug body ++ ")"
| .Quant id qkind body =>
    "Quant(NodeId(" ++ toString id ++ "), " ++ qkind ++ ", " ++ expDebug body ++ ")"
| .Block id pat binding body =>
    "Block(NodeId(" ++ toString id ++ "), " ++ pat ++ ", " ++ expOptDebug binding ++
      ", " ++ expDebug body ++ ")"
| .IfElse id c t e =>
    "IfElse(NodeId(" ++ toString id ++ "), " ++ expDebug c ++ ", " ++ expDebug t ++
      ", " ++ expDebug e ++ ")"
| .Match id scrut arms =>
    "Match(NodeId(" ++ toString id ++ "), " ++ expDebug scrut ++ ", [" ++
      String.intercalate ", " (expsDebug arms) ++ "])"
| .Return id vals => "Return(NodeId(" ++ toString id ++ "), " ++ expDebug vals ++ ")"
| .Sequence id items =>
    "Sequence(NodeId(" ++ toString id ++ "), [" ++
      String.intercalate ", " (expsDebug items) ++ "])"
| .Loop id body => "Loop(NodeId(" ++ toString id ++ "), " ++ expDebug body ++ ")"
| .LoopCont id nest isCont =>
    "LoopCont(NodeId(" ++ toString id ++ "), " ++ toString nest ++ ", " ++
      toString isCont ++ ")"
| .Assign id lhs rhs =>
    "Assign(NodeId(" ++ toString id ++ "), " ++ lhs ++ ", " ++ expDebug rhs ++ ")"
| .Mutate id lhs rhs =>
    "Mutate(NodeId(" ++ toString id ++ "), " ++ expDebug lhs ++ ", " ++
      expDebug rhs ++ ")"
| .SpecBlock id spec => "SpecBlock(NodeId(" ++ toString id ++ "), " ++ spec ++ ")"

/-- expOptDebug models `Debug` for `Option<Exp>` payloads. -/
def expOptDebug : Option ExpData → String
| none => "None"
| some e => "Some(" ++ expDebug e ++ ")"

/-- expsDebug renders each element of an expression list. -/
def expsDebug : List ExpData → List String
| [] => []
| e :: es => expDebug e :: expsDebug es

end

/-- handledKind is true exactly on the eight variants that `exp_to_json` in
`src/main.rs` matches explicitly; every other variant falls to its catch-all
arm. -/
def handledKind : ExpData → Bool
| .Value .. => true
| .LocalVar .. => true
| .Call .. => true
| .Block .. => true
| .Loop .. => true
| .Assign .. => true
| .Return .. => true
| .IfElse .. => true
| _ => false

/-- AttrM models a `move_model::ast::Attribute` as the exporter consumes it:
its resolved name and its `Debug` rendering. -/
structure AttrM where
  name : String
  debugRepr : String


/-- ParamM models a function parameter: resolved name and rendered type. -/
structure ParamM where
  name : String
  ty : String


/-- FieldM models a `FieldEnv`: resolved name, rendered type, offset, and
optional variant tag. -/
structure FieldM where
  name : String
  ty : String
  offset : Nat
  variant : Option String


/-- StructM models a `StructEnv`: everything both exporters read from it. -/
structure StructM where
  name : String
  abilities : List String
  type_params : List String
  fields : List FieldM
  is_native : Bool
  is_ghost_memory : Bool
  attrs : List AttrM


/-- FunctionM models a `FunctionEnv`.  `retDisplay` is the rendering of the
whole result type (used by `src/main.rs`), `results` its flattened component
renderings (used by `src/basic_full.rs`); `body` is `get_def()`. -/
structure FunctionM where
  name : String
  visibility : String
  kind : String
  type_params : List String
  params : List ParamM
  results : List String
  retDisplay : String
  is_native : Bool
  is_intrinsic : Bool
  is_entry : Bool
  attrs : List AttrM
  body : Option ExpData


/-- ModuleM models a `ModuleEnv`.  `name` is the simple name, `fullName` the
`display_full`/`display` rendering `address::name`; `is_target` records
whether the module came from the user package rather than a dependency
source directory (none of the exporters consult it). -/
structure ModuleM where
  name : String
  fullName : String
  address : String
  is_script : Bool
  is_target : Bool
  structs : List StructM
  functions : List FunctionM
  attrs : List AttrM


/-- GlobalEnvM models the compiled `GlobalEnv` returned by the external
compiler: all modules in the environment (user modules and dependency
modules alike, in the environment's fixed order) and the error flag
consulted by `env.has_errors()`. -/
structure GlobalEnvM where
  modules : List ModuleM
  has_errors : Bool


end Model

namespace AttrExporter

open Model

/-- AttrJson mirrors the `AttrJson` record of `src/main.rs`. -/
structure AttrJson where
  name : String
  value : String

/-- ExpJson mirrors the `ExpJson` record of `src/main.rs`: a generic
labeled tree node with kind, optional scalar value, and children. -/
structure ExpJson where
  kind : String
  value : Option String
  children : List ExpJson

/-- FunJson mirrors the `FunJson` record of `src/main.rs`. -/
structure FunJson where
  name : String
  params : List String
  ret : String
  attrs : List AttrJson
  body : Option ExpJson

/-- StructJson mirrors the `StructJson` record of `src/main.rs`. -/
structure StructJson where
  name : String
  fields : List String
  attrs : List AttrJson

/-- ModuleJson mirrors the `ModuleJson` record of `src/main.rs`; note it has
no `address` and no `is_script` field. -/
structure ModuleJson where
  name : String
  structs : List StructJson
  functions : List FunJson
  attrs : List AttrJson

/-- PackageJson mirrors the `PackageJson` record of `src/main.rs`. -/
structure PackageJson where
  modules : List ModuleJson

/-- attrs_to_json mirrors `attrs_to_json` of `src/main.rs`: resolved name
plus the attribute's `Debug` rendering. -/
def attrs_to_json (attrs : List AttrM) : List AttrJson :=
  attrs.map (fun a => { name := a.name, value := a.debugRepr })

mutual

/-- exp_to_json mirrors `exp_to_json` of `src/main.rs`: eight explicitly
handled variants, and a catch-all arm producing a childless leaf labeled
`Unhandled::` plus the node's `Debug` rendering. -/
def exp_to_json : ExpData → ExpJson
| .Value _ v => { kind := "Value", value := some v, children := [] }
| .LocalVar _ sym => { kind := "LocalVar", value := some sym, children := [] }
| .Call _ oper args =>
    { kind := "Call::" ++ oper, value := none, children := exps_to_json args }
| .Block _ _ _ body => { kind := "Block", value := none, children := [exp_to_json body] }
| .Loop _ body => { kind := "Loop", value := none, children := [exp_to_json body] }
| .Assign _ _ rhs => { kind := "Assign", value := none, children := [exp_to_json rhs] }
| .Return _ vals => { kind := "Return", value := none, children := [exp_to_json vals] }
| .IfElse _ c t e =>
    { kind := "IfElse", value := none,
      children := [exp_to_json c, exp_to_json t, exp_to_json e] }
| other => { kind := "Unhandled::" ++ expDebug other, value := none, children := [] }

/-- exps_to_json serializes each argument, as `args.iter().map(...)` does. -/
def exps_to_json : List ExpData → List ExpJson
| [] => []
| e :: es => exp_to_json e :: exps_to_json es

end

/-- struct_to_json mirrors `struct_to_json` of `src/main.rs`: fields are
rendered as `name: type` strings. -/
def struct_to_json (s : StructM) : StructJson :=
  { name := s.name,
    fields := s.fields.map (fun f => f.name ++ ": " ++ f.ty),
    attrs := attrs_to_json s.attrs }

/-- function_to_json mirrors `function_to_json` of `src/main.rs`. -/
def function_to_json (f : FunctionM) : FunJson :=
  { name := f.name,
    params := f.params.map (fun p => p.name ++ ": " ++ p.ty),
    ret := f.retDisplay,
    attrs := attrs_to_json f.attrs,
    body := f.body.map exp_to_json }

/-- module_to_json mirrors `module_to_json` of `src/main.rs`; the module
name is its full `address::name` display. -/
def module_to_json (m : ModuleM) : ModuleJson :=
  { name := m.fullName,
    structs := m.structs.map struct_to_json,
    functions := m.functions.map function_to_json,
    attrs := attrs_to_json m.attrs }

/-- packageJson mirrors the `PackageJson` construction in `main` of
`src/main.rs`: one record per module of the global environment. -/
def packageJson (env : GlobalEnvM) : PackageJson :=
  { modules := env.modules.map module_to_json }

/-- AttrJson.toJson gives serde's serialization of `AttrJson`. -/
def AttrJson.toJson (a : AttrJson) : Json :=
  .obj [("name", .str a.name), ("value", .str a.value)]

mutual

/-- ExpJson.toJson gives serde's serialization of `ExpJson`, keys in
declaration order. -/
def ExpJson.toJson : ExpJson → Json
| ⟨k, v, cs⟩ =>
    .obj [("kind", .str k), ("value", optStr v),
          ("children", .arr (ExpJson.listToJson cs))]

/-- ExpJson.listToJson serializes a list of expression nodes. -/
def ExpJson.listToJson : List ExpJson → List Json
| [] => []
| c :: cs => ExpJson.toJson c :: ExpJson.listToJson cs

end

/-- FunJson.toJson gives serde's serialization of `FunJson`. -/
def FunJson.toJson (f : FunJson) : Json :=
  .obj [("name", .str f.name),
        ("params", .arr (f.params.map Json.str)),
        ("ret", .str f.ret),
        ("attrs", .arr (f.attrs.map AttrJson.toJson)),
        ("body", match f.body with | none => Json.null | some b => ExpJson.toJson b)]

/-- StructJson.toJson gives serde's serialization of `StructJson`. -/
def StructJson.toJson (s : StructJson) : Json :=
  .obj [("name", .str s.name),
        ("fields", .arr (s.fields.map Json.str)),
        ("attrs", .arr (s.attrs.map AttrJson.toJson))]

/-- ModuleJson.toJson gives serde's serialization of `ModuleJson`: exactly
the keys of the Rust record, in declaration order. -/
def ModuleJson.toJson (m : ModuleJson) : Json :=
  .obj [("name", .str m.name),
        ("structs", .arr (m.structs.map StructJson.toJson)),
        ("functions", .arr (m.functions.map FunJson.toJson)),
        ("attrs", .arr (m.attrs.map AttrJson.toJson))]

/-- PackageJson.toJson gives serde's serialization of `PackageJson`. -/
def PackageJson.toJson (p : PackageJson) : Json :=
  .obj [("modules", .arr (p.modules.map ModuleJson.toJson))]

end AttrExporter

namespace BasicFull

open Model

/-- FieldJson mirrors the `FieldJson` record of `src/basic_full.rs`. -/
structure FieldJson where
  name : String
  ty : String
  offset : Nat
  variant : Option String

/-- StructJson mirrors the `StructJson` record of `src/basic_full.rs`. -/
structure StructJson where
  name : String
  abilities : List String
  type_params : List String
  fields : List FieldJson
  is_native : Bool
  is_ghost_memory : Bool

/-- ParamJson mirrors the `ParamJson` record of `src/basic_full.rs`. -/
structure ParamJson where
  name : String
  ty : String

/-- FunctionJson mirrors the `FunctionJson` record of `src/basic_full.rs`. -/
structure FunctionJson where
  name : String
  visibility : String
  kind : String
  type_params : List String
  parameters : List ParamJson
  results : List String
  is_native : Bool
  is_intrinsic : Bool
  is_entry : Bool

/-- ModuleJson mirrors the `ModuleJson` record of `src/basic_full.rs`, with
`address` and `is_script` present. -/
structure ModuleJson where
  name : String
  address : String
  is_script : Bool
  structs : List StructJson
  functions : List FunctionJson

/-- AstJson mirrors the `AstJson` record of `src/basic_full.rs`. -/
structure AstJson where
  modules : List ModuleJson

/-- field_to_json mirrors `field_to_json` of `src/basic_full.rs`: name,
rendered type, offset and variant tag are copied verbatim from the field
environment. -/
def field_to_json (f : FieldM) : FieldJson :=
  { name := f.name, ty := f.ty, offset := f.offset, variant := f.variant }

/-- struct_to_json mirrors `struct_to_json` of `src/basic_full.rs`. -/
def struct_to_json (s : StructM) : StructJson :=
  { name := s.name,
    abilities := s.abilities,
    type_params := s.type_params,
    fields := s.fields.map field_to_json,
    is_native := s.is_native,
    is_ghost_memory := s.is_ghost_memory }

/-- function_to_json mirrors `function_to_json` of `src/basic_full.rs`. -/
def function_to_json (f : FunctionM) : FunctionJson :=
  { name := f.name,
    visibility := f.visibility,
    kind := f.kind,
    type_params := f.type_params,
    parameters := f.params.map (fun p => { name := p.name, ty := p.ty }),
    results := f.results,
    is_native := f.is_native,
    is_intrinsic := f.is_intrinsic,
    is_entry := f.is_entry }

/-- module_to_json mirrors `module_to_json` of `src/basic_full.rs`: simple
name, rendered address, script flag, then structs and functions. -/
def module_to_json (m : ModuleM) : ModuleJson :=
  { name := m.name,
    address := m.address,
    is_script := m.is_script,
    structs := m.structs.map struct_to_json,
    functions := m.functions.map function_to_json }

/-- build_ast mirrors `build_ast` of `src/basic_full.rs`: one record per
module of the global environment. -/
def build_ast (env : GlobalEnvM) : AstJson :=
  { modules := env.modules.map module_to_json }

/-- FieldJson.toJson gives serde's serialization of `FieldJson`. -/
def FieldJson.toJson (f : FieldJson) : Json :=
  .obj [("name", .str f.name), ("ty", .str f.ty), ("offset", .num f.offset),
        ("variant", optStr f.variant)]

/-- StructJson.toJson gives serde's serialization of `StructJson`. -/
def StructJson.toJson (s : StructJson) : Json :=
  .obj [("name", .str s.name),
        ("abilities", .arr (s.abilities.map Json.str)),
        ("type_params", .arr (s.type_params.map Json.str)),
        ("fields", .arr (s.fields.map FieldJson.toJson)),
        ("is_native", .bool s.is_native),
        ("is_ghost_memory", .bool s.is_ghost_memory)]

/-- ParamJson.toJson gives serde's serialization of `ParamJson`. -/
def ParamJson.toJson (p : ParamJson) : Json :=
  .obj [("name", .str p.name), ("ty", .str p.ty)]

/-- FunctionJson.toJson gives serde's serialization of `FunctionJson`. -/
def FunctionJson.toJson (f : FunctionJson) : Json :=
  .obj [("name", .str f.name),
        ("visibility", .str f.visibility),
        ("kind", .str f.kind),
        ("type_params", .arr (f.type_params.map Json.str)),
        ("parameters", .arr (f.parameters.map ParamJson.toJson)),
        ("results", .arr (f.results.map Json.str)),
        ("is_native", .bool f.is_native),
        ("is_intrinsic", .bool f.is_intrinsic),
        ("is_entry", .bool f.is_entry)]

/-- ModuleJson.toJson gives serde's serialization of `ModuleJson`: exactly
the keys of the Rust record, in declaration order. -/
def ModuleJson.toJson (m : ModuleJson) : Json :=
  .obj [("name", .str m.name),
        ("address", .str m.address),
        ("is_script", .bool m.is_script),
        ("structs", .arr (m.structs.map StructJson.toJson)),
        ("functions", .arr (m.functions.map FunctionJson.toJson))]

/-- AstJson.toJson gives serde's serialization of `AstJson`. -/
def AstJson.toJson (a : AstJson) : Json :=
  .obj [("modules", .arr (a.modules.map ModuleJson.toJson))]

end BasicFull

namespace Summary

open Model

/-- Stats mirrors the `Stats` record of `src/summary.rs`. -/
structure Stats where
  structs : Nat
  functions : Nat

/-- PackageSummary mirrors the `PackageSummary` record of `src/summary.rs`. -/
structure PackageSummary where
  modules : List String
  stats : Stats

/-- summarize mirrors `summarize` of `src/summary.rs`: the display names of
all modules in the environment, and a fold accumulating the struct and
function counts of every module. -/
def summarize (env : GlobalEnvM) : PackageSummary :=
  let modules := env.modules.map (fun m => m.fullName)
  let counts := env.modules.foldl
    (fun acc m => (acc.1 + m.structs.length, acc.2 + m.functions.length))
    ((0 : Nat), (0 : Nat))
  { modules := modules, stats := { structs := counts.1, functions := counts.2 } }

/-- Stats.toJson gives serde's serialization of `Stats`. -/
def Stats.toJson (s : Stats) : Json :=
  .obj [("structs", .num s.structs), ("functions", .num s.functions)]

/-- PackageSummary.toJson gives serde's serialization of `PackageSummary`. -/
def PackageSummary.toJson (p : PackageSummary) : Json :=
  .obj [("modules", .arr (p.modules.map Json.str)), ("stats", Stats.toJson p.stats)]

end Summary

namespace Pipeline

open Model

/-- Path is a filesystem path as a list of components. -/
abbrev Path := List String

/-- Fs models the filesystem the staging code touches: a set of existing
directories and a map from file paths to contents (most recent write
first). -/
structure Fs where
  dirs : List Path
  files : List (Path × String)

/-- Fs.isDir models `path.is_dir()`. -/
def Fs.isDir (fs : Fs) (p : Path) : Bool := fs.dirs.contains p

/-- Fs.read models reading a file's contents (the source of `fs::copy`). -/
def Fs.read (fs : Fs) (p : Path) : Option String :=
  (fs.files.find? (fun kv => kv.1 == p)).map (fun kv => kv.2)

/-- Fs.writeF models `fs::write` / the destination side of `fs::copy`. -/
def Fs.writeF (fs : Fs) (p : Path) (c : String) : Fs :=
  { dirs := fs.dirs, files := (p, c) :: fs.files }

/-- Fs.mkdirAll models `fs::create_dir_all` (and `tempfile::tempdir`'s
directory creation). -/
def Fs.mkdirAll (fs : Fs) (p : Path) : Fs :=
  { dirs := p :: fs.dirs, files := fs.files }

/-- Fs.removeTree models recursive removal of a directory tree, as performed
by `TempDir`'s `Drop` implementation: the directory itself and everything
below it disappear. -/
def Fs.removeTree (fs : Fs) (p : Path) : Fs :=
  { dirs := fs.dirs.filter (fun d => !(p.isPrefixOf d)),
    files := fs.files.filter (fun kv => !(p.isPrefixOf kv.1)) }

/-- sourcesOf collects, in filesystem order, the contents of the files below
`root/sources` — the sources the compiler invocation reads, its `sources`
option being that one directory. -/
def sourcesOf (fs : Fs) (root : Path) : List String :=
  (fs.files.filter (fun kv => (root ++ ["sources"]).isPrefixOf kv.1)).map
    (fun kv => kv.2)

/-- stage mirrors the `pkg_root` staging block shared by the three `main`
functions.  A directory input passes through unchanged.  A single-file input
creates a temporary directory `tmp`, writes the minimal manifest, creates
`tmp/sources`, and copies the file to `tmp/sources/main.move`.  Crucially,
in the source the `TempDir` guard `tmp` is a local of the `else` block, so
Rust drops it at the end of that block — before the block's value is
returned — and the `Drop` implementation deletes the whole staged tree; the
final `removeTree` models exactly that drop. -/
def stage (fs : Fs) (path tmp : Path) (manifest : String) :
    Except String (Fs × Path) :=
  if fs.isDir path then .ok (fs, path)
  else
    match fs.read path with
    | none => .error "copy source file"
    | some c =>
      let fs1 := (fs.mkdirAll tmp).writeF (tmp ++ ["Move.toml"]) manifest
      let fs2 := fs1.mkdirAll (tmp ++ ["sources"])
      let fs3 := fs2.writeF (tmp ++ ["sources", "main.move"]) c
      let fs4 := fs3.removeTree tmp
      .ok (fs4, tmp)

/-- runExporter mirrors the shared `main` skeleton of all three exporters:
stage, compile the staged sources, fail on `env.has_errors()`, otherwise
emit the serialized document.  The external compiler is an abstract
function `compile` from the source contents under the staged source root to
a compiled environment or an error (the fixed named-address mapping and the
standard-library dependency path of the `Options` value are folded into
it); `emit` is the exporter-specific serialize-and-render step. -/
def runExporter (emit : GlobalEnvM → String)
    (compile : List String → Except String GlobalEnvM)
    (fs : Fs) (path tmp : Path) (manifest : String) : Except String String :=
  match stage fs path tmp manifest with
  | .error e => .error e
  | .ok staged =>
    match compile (sourcesOf staged.1 staged.2) with
    | .error e => .error e
    | .ok env =>
      if env.has_errors then .error "Compilation failed"
      else .ok (emit env)

/-- ProcResult is the observable outcome of one exporter process: what was
printed on standard output, and the exit code. -/
structure ProcResult where
  stdout : String
  exitCode : Nat
deriving Repr, DecidableEq

/-- runProcess models process-level behavior: on success `main` prints the
document via `println!` and returns `Ok(())` (exit code 0); on any error the
`anyhow` error is reported on standard error and the process exits with
code 1, printing nothing on standard output. -/
def runProcess (emit : GlobalEnvM → String)
    (compile : List String → Except String GlobalEnvM)
    (fs : Fs) (path tmp : Path) (manifest : String) : ProcResult :=
  match runExporter emit compile fs path tmp manifest with
  | .ok s => { stdout := s ++ "\n", exitCode := 0 }
  | .error _ => { stdout := "", exitCode := 1 }

end Pipeline

namespace Examples

open Model Pipeline

/-- manifest0 is the minimal manifest the staging code writes. -/
def manifest0 : String := "[package]\nname=\"scratch\"\nversion=\"0.0.0\"\n"

/-- attr0 is a sample attribute. -/
def attr0 : AttrM := { name := "view", debugRepr := "Apply(view, [])" }

/-- field_a is a sample first field. -/
def field_a : FieldM := { name := "a", ty := "u64", offset := 0, variant := none }

/-- field_b is a sample second field. -/
def field_b : FieldM := { name := "b", ty := "bool", offset := 1, variant := none }

/-- struct0 is a sample compiled struct with two fields at offsets 0 and 1. -/
def struct0 : StructM :=
  { name := "Coin", abilities := ["Key"], type_params := [],
    fields := [field_a, field_b], is_native := false, is_ghost_memory := false,
    attrs := [] }

/-- fun0 is a sample entry function with one parameter and a body. -/
def fun0 : FunctionM :=
  { name := "mint", visibility := "Public", kind := "Regular", type_params := [],
    params := [{ name := "amount", ty := "u64" }], results := [],
    retDisplay := "()", is_native := false, is_intrinsic := false,
    is_entry := true, attrs := [],
    body := some (.Return 3 (.Value 2 "Tuple([])")) }

/-- module0 is a sample user module. -/
def module0 : ModuleM :=
  { name := "BasicCoin", fullName := "0x1::BasicCoin", address := "0x1",
    is_script := false, is_target := true, structs := [struct0],
    functions := [fun0], attrs := [attr0] }

/-- moduleDep is a sample standard-library dependency module, not part of the
user-supplied package. -/
def moduleDep : ModuleM :=
  { name := "vector", fullName := "0x1::vector", address := "0x1",
    is_script := false, is_target := false, structs := [], functions := [],
    attrs := [] }

/-- envOk is a sample compiled environment without errors, holding a
dependency module and the user module. -/
def envOk : GlobalEnvM := { modules := [moduleDep, module0], has_errors := false }

/-- envErr is a compiled environment whose error flag is set. -/
def envErr : GlobalEnvM := { modules := [], has_errors := true }

/-- srcContent stands for the bytes of a well-formed Move source file. -/
def srcContent : String := "module BasicCoin source text"

/-- fileInput is the path of a single-file input. -/
def fileInput : Path := ["work", "main.move"]

/-- dirInput is the path of a directory-form package holding the same source
file under its `sources` directory. -/
def dirInput : Path := ["work", "pkg"]

/-- tmpDir is the fresh temporary directory name `tempfile::tempdir` picks. -/
def tmpDir : Path := ["tmp", "stage0"]

/-- fs0 is a filesystem holding both input forms of the same source. -/
def fs0 : Fs :=
  { dirs := [["work"], dirInput, dirInput ++ ["sources"]],
    files := [(fileInput, srcContent),
              (dirInput ++ ["sources", "coin.move"], srcContent)] }

/-- compile0 models the external compiler on this example: presented with
exactly the sample source it yields `envOk`; on anything else (in
particular, an empty or missing sources directory) it reports an error. -/
def compile0 : List String → Except String GlobalEnvM :=
  fun srcs => if srcs = [srcContent] then .ok envOk else .error "no sources to compile"

/-- compileErr models a compiler run whose diagnostics set the error flag. -/
def compileErr : List String → Except String GlobalEnvM :=
  fun _ => .ok envErr

end Examples

/-- C1: every expression node outside the explicitly handled set (Value,
LocalVar, Call, Block, Loop, Assign, Return, IfElse) serializes, without
error, to a leaf whose kind is the generic `Unhandled::` marker concatenated
with the node's raw debug description, with no scalar value and zero
children; `exp_to_json` is a total function, so serialization never fails
or aborts traversal for any expression kind. -/
theorem c1_unhandled_fallback (e : Model.ExpData)
    (h : Model.handledKind e = false) :
    AttrExporter.exp_to_json e =
      ⟨"Unhandled::" ++ Model.expDebug e, none, []⟩ := by
  cases e <;> simp [Model.handledKind] at h <;>
    simp [AttrExporter.exp_to_json]

/-- Witness for C1 at the concrete unhandled node `Temporary(7, 1)`. -/
theorem c1_unhandled_fallback_witness :
    Model.handledKind (Model.ExpData.Temporary 7 1) = false ∧
    AttrExporter.exp_to_json (Model.ExpData.Temporary 7 1) =
      ⟨"Unhandled::" ++ Model.expDebug (Model.ExpData.Temporary 7 1), none, []⟩ :=
  ⟨rfl, c1_unhandled_fallback (Model.ExpData.Temporary 7 1) rfl⟩

/-- C4: serialized structural nodes have the fixed arity of their construct:
a conditional has exactly the three children condition, then-expression,
else-expression, in that order; block, loop, assignment and return nodes
have exactly one child each. -/
theorem c4_structural_arity (id1 id2 id3 id4 id5 : Nat) (pat lhs : String)
    (binding : Option Model.ExpData) (c t e body rhs vals : Model.ExpData) :
    (AttrExporter.exp_to_json (Model.ExpData.IfElse id1 c t e)).children =
      [AttrExporter.exp_to_json c, AttrExporter.exp_to_json t,
       AttrExporter.exp_to_json e] ∧
    (AttrExporter.exp_to_json (Model.ExpData.IfElse id1 c t e)).children.length = 3 ∧
    (AttrExporter.exp_to_json (Model.ExpData.Block id2 pat binding body)).children.length = 1 ∧
    (AttrExporter.exp_to_json (Model.ExpData.Loop id3 body)).children.length = 1 ∧
    (AttrExporter.exp_to_json (Model.ExpData.Assign id4 lhs rhs)).children.length = 1 ∧
    (AttrExporter.exp_to_json (Model.ExpData.Return id5 vals)).children.length = 1 := by
  refine ⟨?_, ?_, ?_, ?_, ?_, ?_⟩ <;> simp [AttrExporter.exp_to_json]

/-- C9: a serialized Block node has exactly one child — the body — and is
independent of the block's binding pattern and bound value; a serialized
Assign node has exactly one child — the right-hand side — independent of
the assignment target; a serialized Return node has exactly one child, the
returned value expression. -/
theorem c9_block_assign_return_children (id : Nat) (pat pat2 lhs lhs2 : String)
    (b1 b2 : Option Model.ExpData) (body rhs vals : Model.ExpData) :
    AttrExporter.exp_to_json (Model.ExpData.Block id pat b1 body) =
      ⟨"Block", none, [AttrExporter.exp_to_json body]⟩ ∧
    AttrExporter.exp_to_json (Model.ExpData.Block id pat b1 body) =
      AttrExporter.exp_to_json (Model.ExpData.Block id pat2 b2 body) ∧
    AttrExporter.exp_to_json (Model.ExpData.Assign id lhs rhs) =
      ⟨"Assign", none, [AttrExporter.exp_to_json rhs]⟩ ∧
    AttrExporter.exp_to_json (Model.ExpData.Assign id lhs rhs) =
      AttrExporter.exp_to_json (Model.ExpData.Assign id lhs2 rhs) ∧
    AttrExporter.exp_to_json (Model.ExpData.Return id vals) =
      ⟨"Return", none, [AttrExporter.exp_to_json vals]⟩ := by
  refine ⟨?_, ?_, ?_, ?_, ?_⟩ <;> simp [AttrExporter.exp_to_json]

/-- C3 counterexample: in the attribute-aware exporter the serialized module
object for the concrete module `module0` does not contain an `address` key
(nor an `is_script` key), refuting the claim that every module object
contains `name`, `address`, `is_script`, `structs` and `functions`. -/
theorem c3_counterexample :
    ¬ ("address" ∈ jsonKeys (AttrExporter.ModuleJson.toJson
        (AttrExporter.module_to_json Examples.module0))) ∧
    ¬ ("is_script" ∈ jsonKeys (AttrExporter.ModuleJson.toJson
        (AttrExporter.module_to_json Examples.module0))) := by
  constructor <;>
    simp [AttrExporter.module_to_json, AttrExporter.ModuleJson.toJson, jsonKeys]

/-- C3 amended: every module object of the basic exporter has exactly the
keys `name`, `address`, `is_script`, `structs`, `functions`; every module
object of the attribute-aware exporter has exactly the keys `name`,
`structs`, `functions`, `attrs` — without `address` or `is_script`. -/
theorem c3_module_keys (m : Model.ModuleM) :
    jsonKeys (BasicFull.ModuleJson.toJson (BasicFull.module_to_json m)) =
      ["name", "address", "is_script", "structs", "functions"] ∧
    jsonKeys (AttrExporter.ModuleJson.toJson (AttrExporter.module_to_json m)) =
      ["name", "structs", "functions", "attrs"] := by
  constructor <;>
    simp [BasicFull.module_to_json, BasicFull.ModuleJson.toJson,
      AttrExporter.module_to_json, AttrExporter.ModuleJson.toJson, jsonKeys]

/-- Helper: the summary fold accumulates exactly the sums of the per-module
struct and function counts. -/
theorem summarize_fold_eq (l : List Model.ModuleM) (s f : Nat) :
    l.foldl (fun acc m => (acc.1 + m.structs.length, acc.2 + m.functions.length))
      (s, f) =
      (s + (l.map (fun m => m.structs.length)).sum,
       f + (l.map (fun m => m.functions.length)).sum) := by
  induction l generalizing s f with
  | nil => simp
  | cons m rest ih => simp [ih]; omega

/-- C10: all three exporters serialize every module of the compiled global
environment — the serialized module lists are the map of the serializer over
the full module list, which includes dependency and standard-library modules
(`is_target = false`) as well as user modules — and the summary stats are
sums of struct and function counts over all modules in the environment. -/
theorem c10_all_modules_serialized (env : Model.GlobalEnvM) :
    (AttrExporter.packageJson env).modules =
      env.modules.map AttrExporter.module_to_json ∧
    (BasicFull.build_ast env).modules =
      env.modules.map BasicFull.module_to_json ∧
    (Summary.summarize env).modules = env.modules.map (fun m => m.fullName) ∧
    (Summary.summarize env).stats.structs =
      (env.modules.map (fun m => m.structs.length)).sum ∧
    (Summary.summarize env).stats.functions =
      (env.modules.map (fun m => m.functions.length)).sum := by
  refine ⟨rfl, rfl, rfl, ?_, ?_⟩ <;>
    simp only [Summary.summarize, summarize_fold_eq] <;> simp

/-- C7: the serializer copies field offsets verbatim and preserves field
declaration order, so for every struct whose compiled field environments
carry pairwise distinct offsets in non-decreasing declaration order — the
invariant the compiled model guarantees for a successfully compiled
struct — the serialized offsets are the same list: pairwise distinct and
non-decreasing, matching declaration order. -/
theorem c7_field_offsets (s : Model.StructM)
    (h_uniq : (s.fields.map Model.FieldM.offset).Pairwise (fun a b => a ≠ b))
    (h_mono : (s.fields.map Model.FieldM.offset).Chain' (fun a b => a ≤ b)) :
    (BasicFull.struct_to_json s).fields.map BasicFull.FieldJson.offset =
      s.fields.map Model.FieldM.offset ∧
    ((BasicFull.struct_to_json s).fields.map BasicFull.FieldJson.offset).Pairwise
      (fun a b => a ≠ b) ∧
    ((BasicFull.struct_to_json s).fields.map BasicFull.FieldJson.offset).Chain'
      (fun a b => a ≤ b) := by
  have key : (BasicFull.struct_to_json s).fields.map BasicFull.FieldJson.offset =
      s.fields.map Model.FieldM.offset := by
    simp [BasicFull.struct_to_json, BasicFull.field_to_json, List.map_map]
  exact ⟨key, key ▸ h_uniq, key ▸ h_mono⟩

/-- Witness for C7 at the concrete struct `struct0` (offsets 0 and 1). -/
theorem c7_field_offsets_witness :
    (Examples.struct0.fields.map Model.FieldM.offset).Pairwise (fun a b => a ≠ b) ∧
    ((BasicFull.struct_to_json Examples.struct0).fields.map
      BasicFull.FieldJson.offset).Chain' (fun a b => a ≤ b) :=
  ⟨by decide, (c7_field_offsets Examples.struct0 (by decide)
    (by simp [Examples.struct0, Examples.field_a, Examples.field_b])).2.2⟩

/-- Helper: a path below the staged `sources` directory is also below the
temporary directory itself. -/
theorem isPrefixOf_of_append (a b l : List String)
    (h : (a ++ b).isPrefixOf l) : a.isPrefixOf l := by
  rw [List.isPrefixOf_iff_prefix] at *
  exact (List.prefix_append a b).trans h

/-- Helper: after the temporary directory tree has been removed, no source
file remains below its `sources` directory — the compiler invocation sees an
empty source root. -/
theorem sourcesOf_removeTree (fs : Pipeline.Fs) (tmp : Pipeline.Path) :
    Pipeline.sourcesOf (fs.removeTree tmp) tmp = [] := by
  unfold Pipeline.sourcesOf Pipeline.Fs.removeTree
  rw [List.filter_filter]
  have h : ∀ kv : Pipeline.Path × String,
      ((tmp ++ ["sources"]).isPrefixOf kv.1 && !(tmp.isPrefixOf kv.1)) = false := by
    intro kv
    by_cases hp : (tmp ++ ["sources"]).isPrefixOf kv.1
    · simp [hp, isPrefixOf_of_append tmp ["sources"] kv.1 hp]
    · simp [hp]
  simp [h]

/-- Helper: the outcome of an exporter run does not depend on the name of
the temporary directory: a directory input never touches it, and for a
single-file input the staged tree is deleted again (by the early `TempDir`
drop) before the compiler runs, so the compiler sees an empty source list
either way. -/
theorem runExporter_tmp_irrelevant (emit : Model.GlobalEnvM → String)
    (compile : List String → Except String Model.GlobalEnvM)
    (fs : Pipeline.Fs) (path tmp1 tmp2 : Pipeline.Path) (manifest : String) :
    Pipeline.runExporter emit compile fs path tmp1 manifest =
      Pipeline.runExporter emit compile fs path tmp2 manifest := by
  unfold Pipeline.runExporter Pipeline.stage
  by_cases hd : fs.isDir path = true
  · simp [hd]
  · simp only [Bool.not_eq_true] at hd
    cases hr : fs.read path with
    | none => simp [hd, hr]
    | some c => simp [hd, hr, sourcesOf_removeTree]

/-- C6: the export pipeline is a deterministic function of its input — two
runs of the same exporter on the same filesystem and input path produce
byte-identical standard output and the same exit code, whatever fresh
temporary directory each run draws. -/
theorem c6_deterministic (emit : Model.GlobalEnvM → String)
    (compile : List String → Except String Model.GlobalEnvM)
    (fs : Pipeline.Fs) (path tmp1 tmp2 : Pipeline.Path) (manifest : String) :
    Pipeline.runProcess emit compile fs path tmp1 manifest =
      Pipeline.runProcess emit compile fs path tmp2 manifest := by
  unfold Pipeline.runProcess
  rw [runExporter_tmp_irrelevant emit compile fs path tmp1 tmp2 manifest]

/-- C5: whenever compilation reports errors — the compiler either returns an
error outright or an environment whose error flag is set — the process
prints nothing on standard output and exits with a non-zero status. -/
theorem c5_compile_errors_fatal (emit : Model.GlobalEnvM → String)
    (compile : List String → Except String Model.GlobalEnvM)
    (fs : Pipeline.Fs) (path tmp : Pipeline.Path) (manifest : String)
    (h : ∀ srcs env, compile srcs = Except.ok env → env.has_errors = true) :
    (Pipeline.runProcess emit compile fs path tmp manifest).stdout = "" ∧
    (Pipeline.runProcess emit compile fs path tmp manifest).exitCode ≠ 0 := by
  unfold Pipeline.runProcess Pipeline.runExporter
  cases hs : Pipeline.stage fs path tmp manifest with
  | error e => simp
  | ok staged =>
    cases hc : compile (Pipeline.sourcesOf staged.1 staged.2) with
    | error e => simp [hc]
    | ok env => simp [hc, h _ _ hc]

/-- Witness for C5: a run whose compilation sets the error flag prints
nothing and exits non-zero. -/
theorem c5_compile_errors_fatal_witness :
    (Pipeline.runProcess (fun x => toString (Summary.summarize x).stats.structs)
      Examples.compileErr Examples.fs0 Examples.fileInput Examples.tmpDir
      Examples.manifest0).stdout = "" ∧
    (Pipeline.runProcess (fun x => toString (Summary.summarize x).stats.structs)
      Examples.compileErr Examples.fs0 Examples.fileInput Examples.tmpDir
      Examples.manifest0).exitCode ≠ 0 :=
  c5_compile_errors_fatal _ Examples.compileErr Examples.fs0 Examples.fileInput
    Examples.tmpDir Examples.manifest0
    (by intro srcs env hc
        simp only [Examples.compileErr] at hc
        cases hc
        rfl)

/-- C8 evaluation: on a concrete single-file input, staging succeeds, yet it
returns the filesystem completely unchanged — the `TempDir` guard is a local
of the staging block, so its drop deletes the staged tree before the block's
value is even returned.  At the moment compilation starts, the temporary
directory does not exist and its `sources` directory holds no files, contrary
to the claim that the directory exists for the duration of the compilation
step. -/
theorem c8_tempdir_removed_before_compilation :
    Pipeline.stage Examples.fs0 Examples.fileInput Examples.tmpDir
      Examples.manifest0 = Except.ok (Examples.fs0, Examples.tmpDir) ∧
    Examples.fs0.isDir Examples.tmpDir = false ∧
    Examples.fs0.isDir (Examples.tmpDir ++ ["sources"]) = false ∧
    Pipeline.sourcesOf Examples.fs0 Examples.tmpDir = [] :=
  ⟨rfl, rfl, rfl, rfl⟩

/-- C2 evaluation: the same source compiled as a directory-form package and
as a single file does not produce identical output.  The directory run
succeeds (exit code 0, document on standard output); the single-file run
hands the compiler the already-deleted staging directory, so it fails with
exit code 1 and no output — whatever serializer `emit` the exporter uses. -/
theorem c2_file_vs_dir_not_equivalent (emit : Model.GlobalEnvM → String) :
    (Pipeline.runProcess emit Examples.compile0 Examples.fs0 Examples.dirInput
      Examples.tmpDir Examples.manifest0).exitCode = 0 ∧
    (Pipeline.runProcess emit Examples.compile0 Examples.fs0 Examples.fileInput
      Examples.tmpDir Examples.manifest0).exitCode = 1 ∧
    (Pipeline.runProcess emit Examples.compile0 Examples.fs0 Examples.fileInput
      Examples.tmpDir Examples.manifest0).stdout = "" ∧
    Pipeline.runProcess emit Examples.compile0 Examples.fs0 Examples.dirInput
      Examples.tmpDir Examples.manifest0 ≠
      Pipeline.runProcess emit Examples.compile0 Examples.fs0 Examples.fileInput
        Examples.tmpDir Examples.manifest0 := by
  have hdir : Pipeline.runExporter emit Examples.compile0 Examples.fs0
      Examples.dirInput Examples.tmpDir Examples.manifest0 =
      Except.ok (emit Examples.envOk) := rfl
  have hfile : Pipeline.runExporter emit Examples.compile0 Examples.fs0
      Examples.fileInput Examples.tmpDir Examples.manifest0 =
      Except.error "no sources to compile" := rfl
  refine ⟨?_, ?_, ?_, ?_⟩ <;>
    simp [Pipeline.runProcess, hdir, hfile]
